import Mathlib

/-!
# Verification of the agent execution loop of `mistral-function-calling`

The repository is a notebook that wires an `ImageGenerator` tool into a
ReAct-style agent loop (`AgentExecutor` with `handle_parsing_errors=True`,
`early_stopping_method="generate"`, `return_intermediate_steps=True`, and a
`ConversationBufferWindowMemory` with `k = 5`).  The `ImageGenerator._run`
and `ImageGenerator._arun` methods are in the notebook itself and are
embedded below directly.  The agent-loop core (ActionParser, ToolInvoker,
AgentExecutor, ConversationMemory) lives in the agent framework the notebook
imports, not in the repository sources, so those components are modelled
from the specification, with the textual details (diagnostic strings, the
recorded tool input) anchored to the execution trace recorded in the
notebook's output cells.
-/

namespace MistralFC

/-! ## Basic character-list utilities -/

/-- A whitespace character, as Python's `\s` class on the characters that
occur here: space, newline, tab, carriage return. -/
def isWS (c : Char) : Bool :=
  c = ' ' || c = '\n' || c = '\t' || c = '\r'

/-- Drop trailing characters satisfying `p`. -/
def dropTrailing (p : Char → Bool) (cs : List Char) : List Char :=
  (cs.reverse.dropWhile p).reverse

/-- Python `str.strip()`: remove whitespace from both ends. -/
def trimWS (cs : List Char) : List Char :=
  dropTrailing isWS (cs.dropWhile isWS)

/-- Python `str.strip(" ")`: remove spaces (only) from both ends. -/
def stripSpaces (cs : List Char) : List Char :=
  dropTrailing (fun c => c = ' ') (cs.dropWhile (fun c => c = ' '))

/-- Python `str.strip(Chr(34))`: remove double quotes from both ends. -/
def stripQuotes (cs : List Char) : List Char :=
  dropTrailing (fun c => c = '"') (cs.dropWhile (fun c => c = '"'))

/-- Split `hay` at the first occurrence of `pat`: returns the part strictly
before the occurrence and the part strictly after it, or `none` when `pat`
does not occur in `hay`. -/
def splitFirst : List Char → List Char → Option (List Char × List Char)
  | [], pat => if pat.isPrefixOf ([] : List Char) then some ([], []) else none
  | c :: cs, pat =>
    if pat.isPrefixOf (c :: cs) then some ([], (c :: cs).drop pat.length)
    else
      match splitFirst cs pat with
      | some (pre, post) => some (c :: pre, post)
      | none => none

/-- `pat` occurs somewhere in `hay`. -/
def containsSub (hay pat : List Char) : Bool :=
  (splitFirst hay pat).isSome

/-! ## Outcome and the ActionParser

Modelled from the spec: the ActionParser (spec 4.1) is part of the agent
framework the notebook calls into and is not among the repository sources.
It is reconstructed here from the spec's fixed textual grammar — an optional
`Thought:` segment, then either `Action: <name>` followed by
`Action Input: <text>`, or `Final Answer: <text>` — with the diagnostic
strings and the tool-input extraction matching the behaviour recorded in the
notebook's executed output cell (the recorded run shows the diagnostic
"Invalid Format: Missing \x27Action:\x27 after \x27Thought:" and a tool
input that keeps the trailing stop-sequence fragment "\n\nObserv"). -/

/-- Outcome — tagged variant over Action, FinalAnswer, ParseError
(spec section 3).  Exactly one variant is live per step. -/
inductive Outcome where
  | action (toolName toolInput reasoningLog : String)
  | finalAnswer (text reasoningLog : String)
  | parseError (reason : String)
  deriving DecidableEq, Repr

/-- The `Final Answer:` marker of the grammar. -/
def finalAnswerMarker : List Char := "Final Answer:".toList

/-- The `Action:` marker of the grammar. -/
def actionMarker : List Char := "Action:".toList

/-- The `Action Input:` marker of the grammar. -/
def actionInputMarker : List Char := "Action Input:".toList

/-- Diagnostic for text with no action pair and no final answer, exactly as
recorded in the notebook's output (`_Exception` step): the framework's
message lacks the closing quote after `Thought:`. -/
def missingActionMsg : String :=
  "Invalid Format: Missing \x27Action:\x27 after \x27Thought:"

/-- Diagnostic for an `Action:` marker with no following `Action Input:`
marker; names the missing `Action Input:` marker. -/
def missingActionInputMsg : String :=
  "Invalid Format: Missing \x27Action Input:\x27 after \x27Action:\x27"

/-- Diagnostic when the text carries both a parse-able action and a final
answer. -/
def bothAnswerAndActionMsg : String :=
  "Parsing LLM output produced both a final answer and a parse-able action"

/-- Tool-input extraction: the text following `Action Input:` up to the end
of the string, with leading whitespace, surrounding spaces and surrounding
double quotes removed — and nothing else removed, matching the recorded
run, where the tool input kept its trailing "\n\nObserv" fragment. -/
def toolInputOf (post : List Char) : List Char :=
  stripQuotes (stripSpaces (post.dropWhile isWS))

/-- Find an `Action: <name>` ... `Action Input: <input>` pair: the first
`Action Input:` occurrence, with an `Action:` occurrence before it; the
name is the trimmed text between the two markers, the input is
`toolInputOf` the text after `Action Input:`. -/
def actionMatch (cs : List Char) : Option (List Char × List Char) :=
  match splitFirst cs actionInputMarker with
  | some (pre, post) =>
    match splitFirst pre actionMarker with
    | some (_, namePart) => some (trimWS namePart, toolInputOf post)
    | none => none
  | none => none

/-- Modelled from the spec: the ActionParser (spec 4.1).  Total: every raw
model output maps to exactly one `Outcome`.  An action pair wins unless a
`Final Answer:` is also present; otherwise a `Final Answer:` yields the
trimmed text after the marker; otherwise a lone `Action:` yields the
missing-`Action Input:` diagnostic, and text with neither marker yields the
missing-`Action:` diagnostic recorded in the notebook output. -/
def actionParser (text : String) : Outcome :=
  let cs := text.toList
  match actionMatch cs with
  | some (name, input) =>
    if (splitFirst cs finalAnswerMarker).isSome then
      Outcome.parseError bothAnswerAndActionMsg
    else
      Outcome.action (String.mk name) (String.mk input) text
  | none =>
    match splitFirst cs finalAnswerMarker with
    | some (_, post) => Outcome.finalAnswer (String.mk (trimWS post)) text
    | none =>
      if (splitFirst cs actionMarker).isSome then
        Outcome.parseError missingActionInputMsg
      else
        Outcome.parseError missingActionMsg

example :
    actionParser "Thought: hi\nAction: Image Generator\nAction Input: cats" =
      Outcome.action "Image Generator" "cats"
        "Thought: hi\nAction: Image Generator\nAction Input: cats" := by decide

example :
    actionParser "Final Answer: hello there " =
      Outcome.finalAnswer "hello there" "Final Answer: hello there " := by decide

example :
    actionParser "Thought: hmm\nAction: Image Generator" =
      Outcome.parseError missingActionInputMsg := by decide

example : actionParser "random chatter" = Outcome.parseError missingActionMsg := by
  decide

/-! ## The ImageGenerator tool (embedded from `src/notebook.ipynb`) -/

/-- A Python exception as raised by the tool code: either the
`NotImplementedError` of the async path or the `ToolException` of the sync
path. -/
inductive PyError where
  | notImplementedError (msg : String)
  | toolException (msg : String)
  deriving DecidableEq, Repr

/-- The message of a Python exception. -/
def PyError.msg : PyError → String
  | .notImplementedError m => m
  | .toolException m => m

/-- The fixed, model-safe failure text of `ImageGenerator._run`, verbatim
from the notebook's `except` branch. -/
def imageGenFailureText : String :=
  "Failed to generate image. Tell the user that you are sorry but you cannot show them a picture right now."

/-- Embeds `ImageGenerator._run` from `src/notebook.ipynb`.  The external
Prodia pipeline — `prodia.sdxl.generate`, `prodia.wait`, and the final
`str(result.image_url)` — is abstracted as `generate : String → Except
String String`, returning either the URL string or the raw exception text.
The body returns the URL unchanged on success, and on any exception raises
a `ToolException` whose message is the fixed safe-failure text: the caught
exception `e` is bound but never interpolated into the message. -/
def ImageGenerator_run (generate : String → Except String String)
    (prompt : String) : Except PyError String :=
  match generate prompt with
  | Except.ok url => Except.ok url
  | Except.error _ => Except.error (PyError.toolException imageGenFailureText)

/-- Embeds `ImageGenerator._arun` from `src/notebook.ipynb`: for every
query it raises `NotImplementedError` with the literal message of the
source. -/
def ImageGenerator_arun (query : String) : Except PyError String :=
  Except.error (PyError.notImplementedError "ImageGenerator does not support async")

/-! ## Observations and the ToolInvoker -/

/-- Observation — text result of a tool call, tagged success or failure
(spec section 3). -/
inductive Observation where
  | success (text : String)
  | failure (text : String)
  deriving DecidableEq, Repr

/-- The text carried by an observation, as re-injected into the prompt. -/
def Observation.text : Observation → String
  | .success t => t
  | .failure t => t

/-- A tool registry: names mapped to callables, registered once at startup
(spec section 3, ToolSpec). -/
abbrev ToolRegistry := List (String × (String → Except PyError String))

/-- Registry lookup by tool name. -/
def lookupTool : ToolRegistry → String → Option (String → Except PyError String)
  | [], _ => none
  | (k, t) :: rest, n => if n = k then some t else lookupTool rest n

/-- Modelled from the spec: the ToolInvoker (spec 4.2) is part of the agent
framework and not among the repository sources.  It resolves the tool name
against the registry; an unknown name yields a failure observation with a
fixed message identifying the unknown tool name, and a resolved tool's
result is normalised — success wraps the returned text verbatim, a raised
exception becomes a failure observation carrying the tool author's message. -/
def toolInvoker (registry : ToolRegistry) (toolName toolInput : String) :
    Observation :=
  match lookupTool registry toolName with
  | some tool =>
    match tool toolInput with
    | Except.ok t => Observation.success t
    | Except.error e => Observation.failure e.msg
  | none => Observation.failure ("Unknown tool: " ++ toolName)

/-- The notebook's registry: `tools = [ImageGenerator()]`, a single tool
named "Image Generator", parametrised by the external Prodia call. -/
def notebookTools (generate : String → Except String String) : ToolRegistry :=
  [("Image Generator", ImageGenerator_run generate)]

/-! ## ConversationMemory -/

/-- One completed (input, output) exchange. -/
abbrev Exchange := String × String

/-- Modelled from the spec: ConversationMemory (spec section 3) is the
framework's `ConversationBufferWindowMemory` — the notebook instantiates it
with `k = 5` — an ordered sequence of up to `k` most recent exchanges with
FIFO eviction: inserting into a full window drops the oldest entry. -/
def memInsert (k : Nat) (mem : List Exchange) (e : Exchange) : List Exchange :=
  let m := mem ++ [e]
  m.drop (m.length - k)

/-! ## The AgentExecutor loop -/

/-- Termination reasons of the loop (spec 4.4): the three terminal states. -/
inductive TerminationReason where
  | finalAnswer
  | maxIterationsExceeded
  | aborted
  deriving DecidableEq, Repr

/-- One entry of the ordered intermediate-steps trail, in the shape the
notebook's recorded `intermediate_steps` expose: the agent action (tool
name, tool input, raw reasoning log) paired with the observation text.
ParseError steps appear with the pseudo tool name `_Exception`, as in the
recorded run. -/
structure AgentStep where
  toolName : String
  toolInput : String
  log : String
  observation : String
  deriving DecidableEq, Repr

/-- The record the exposed `run` operation returns (spec section 6):
final answer text, the ordered intermediate steps, and the termination
reason.  `modelCalls` is a ghost counter of model calls issued, used to
state the resource bounds of the loop. -/
structure RunResult where
  finalAnswerText : String
  intermediateSteps : List AgentStep
  terminationReason : TerminationReason
  modelCalls : Nat
  deriving Repr

/-- Modelled from the spec: the AgentExecutor iteration loop (spec 4.4),
parametrised by the tool registry, the external model oracle (the text the
model returns on its i-th call; PromptComposer is substitution-only and is
absorbed into the oracle), and the cancellation signal checked before each
call.  `fuel` is the remaining iteration budget, `calls` the model calls
issued so far, `steps` the accumulated trail.  On budget exhaustion with
`early_stopping_method="generate"` one forced model call is issued and its
text becomes the final answer whatever its format. -/
def agentLoop (registry : ToolRegistry) (model : Nat → String)
    (cancelled : Nat → Bool) :
    Nat → Nat → List AgentStep → RunResult
  | 0, calls, steps =>
    if cancelled calls then
      ⟨"", steps, TerminationReason.aborted, calls⟩
    else
      ⟨model calls, steps, TerminationReason.maxIterationsExceeded, calls + 1⟩
  | fuel + 1, calls, steps =>
    if cancelled calls then
      ⟨"", steps, TerminationReason.aborted, calls⟩
    else
      match actionParser (model calls) with
      | Outcome.finalAnswer t _ =>
        ⟨t, steps, TerminationReason.finalAnswer, calls + 1⟩
      | Outcome.action n i l =>
        agentLoop registry model cancelled fuel (calls + 1)
          (steps ++ [⟨n, i, l, (toolInvoker registry n i).text⟩])
      | Outcome.parseError r =>
        agentLoop registry model cancelled fuel (calls + 1)
          (steps ++ [⟨"_Exception", r, model calls, r⟩])

/-- The loop started in its initial state: empty scratchpad, counter 0. -/
def agentRun (registry : ToolRegistry) (model : Nat → String)
    (cancelled : Nat → Bool) (maxIterations : Nat) : RunResult :=
  agentLoop registry model cancelled maxIterations 0 []

/-- Modelled from the spec: the exposed `run` operation (spec section 6) —
run the loop on the task input, then, only after the terminal outcome,
commit the (input, final answer) exchange to ConversationMemory.  The loop
itself never touches the memory. -/
def runTask (k maxIterations : Nat) (registry : ToolRegistry)
    (model : Nat → String) (cancelled : Nat → Bool) (input : String)
    (mem : List Exchange) : RunResult × List Exchange :=
  let r := agentRun registry model cancelled maxIterations
  (r, memInsert k mem (input, r.finalAnswerText))

/-! ## Recorded raw model outputs (from the notebook's executed output cell) -/

/-- The raw model generation recorded in the notebook's run, exactly as it
appears in the logged `AgentAction`: reasoning text, the action pair, and
the truncated trailing stop-sequence fragment "Observ". -/
def recordedRawOutput : String :=
  " The user wants to see an image of two small cats playing with a ball of yarn. I can use the Image Generator tool to fulfill this request.\n\nAction: Image Generator\nAction Input: Two small cats playing with a ball of yarn\n\nObserv"

/-- The tool input recorded in the notebook's `intermediate_steps` for the
generation above: the trailing stop-sequence fragment is kept. -/
def recordedToolInput : String :=
  "Two small cats playing with a ball of yarn\n\nObserv"

/-- The spec's cats scenario: an action pair naming input `cats`, then a
truncated continuation lacking a final answer. -/
def catsScenarioOutput : String :=
  "Thought: the user wants to see cats\nAction: Image Generator\nAction Input: cats\n\nObserv"

/-- Helper predicate: an outcome is a final answer. -/
def Outcome.isFinal : Outcome → Bool
  | .finalAnswer _ _ => true
  | _ => false

/-! ## Claims -/

/-- C2: for every raw model output text, the ActionParser returns exactly
one of the three Outcome variants — Action, FinalAnswer or ParseError —
and, being a total function, never raises an uncaught failure. -/
theorem actionParser_total (text : String) :
    (∃ n i l, actionParser text = Outcome.action n i l) ∨
    (∃ t l, actionParser text = Outcome.finalAnswer t l) ∨
    (∃ r, actionParser text = Outcome.parseError r) := by
  cases h : actionParser text with
  | action n i l => exact Or.inl ⟨n, i, l, rfl⟩
  | finalAnswer t l => exact Or.inr (Or.inl ⟨t, l, rfl⟩)
  | parseError r => exact Or.inr (Or.inr ⟨r, rfl⟩)

/-- C3: for every text that has a `Thought:` segment and an `Action:`
marker but no `Action Input:` marker (and no `Final Answer:`), the parser
yields a ParseError carrying the fixed diagnostic that names the missing
`Action Input:` marker. -/
theorem actionParser_missing_action_input (text : String)
    (_hT : containsSub text.toList ("Thought:".toList) = true)
    (hA : containsSub text.toList actionMarker = true)
    (hAI : containsSub text.toList actionInputMarker = false)
    (hFA : containsSub text.toList finalAnswerMarker = false) :
    actionParser text = Outcome.parseError missingActionInputMsg ∧
    containsSub missingActionInputMsg.toList actionInputMarker = true := by
  refine ⟨?_, by decide⟩
  unfold containsSub at hA hAI hFA
  simp only [String.toList] at hA hAI hFA
  have h1 : splitFirst text.data actionInputMarker = none := by
    cases h : splitFirst text.data actionInputMarker
    · rfl
    · rw [h] at hAI; simp at hAI
  have h2 : splitFirst text.data finalAnswerMarker = none := by
    cases h : splitFirst text.data finalAnswerMarker
    · rfl
    · rw [h] at hFA; simp at hFA
  simp [actionParser, actionMatch, h1, h2, hA]

/-- Witness for C3: a concrete truncated generation with a `Thought:`
segment and an `Action:` but no `Action Input:`. -/
theorem actionParser_missing_action_input_witness :
    actionParser "Thought: I will draw this\nAction: Image Generator" =
      Outcome.parseError missingActionInputMsg ∧
    containsSub missingActionInputMsg.toList actionInputMarker = true :=
  actionParser_missing_action_input "Thought: I will draw this\nAction: Image Generator"
    (by decide) (by decide) (by decide) (by decide)

set_option maxRecDepth 100000 in
/-- C4 (code behaviour at the failing input): on the raw model generation
recorded in the notebook the parser classifies the text as an Action, but
the tool input keeps the trailing stop-sequence fragment "\n\nObserv"
exactly as recorded in `intermediate_steps`; likewise in the spec's cats
scenario the extracted input is "cats\n\nObserv", not the "cats" the claim
states — the fragment is not stripped. -/
theorem actionParser_keeps_stop_fragment :
    actionParser recordedRawOutput =
      Outcome.action "Image Generator" recordedToolInput recordedRawOutput ∧
    actionParser catsScenarioOutput =
      Outcome.action "Image Generator" "cats\n\nObserv" catsScenarioOutput ∧
    ("cats\n\nObserv" : String) ≠ "cats" :=
  ⟨by decide, by decide, by decide⟩

/-- C10: for every query, the asynchronous path `ImageGenerator._arun`
raises `NotImplementedError` with the fixed message of the source — the
tool is never usable asynchronously. -/
theorem arun_not_implemented (query : String) :
    ImageGenerator_arun query =
      Except.error
        (PyError.notImplementedError "ImageGenerator does not support async") :=
  rfl

/-- C5: whenever the underlying generation pipeline raises, whatever the
two distinct underlying exceptions are, the failure observation handed back
to the loop is the same fixed safe-failure text chosen in the tool source;
the observation is independent of the underlying cause, so the raw
exception text never reaches it. -/
theorem toolException_observation_independent_of_cause
    (gen1 gen2 : String → Except String String) (prompt e1 e2 : String)
    (_hne : e1 ≠ e2)
    (h1 : gen1 prompt = Except.error e1) (h2 : gen2 prompt = Except.error e2) :
    toolInvoker (notebookTools gen1) "Image Generator" prompt =
      toolInvoker (notebookTools gen2) "Image Generator" prompt ∧
    toolInvoker (notebookTools gen1) "Image Generator" prompt =
      Observation.failure imageGenFailureText := by
  have r1 : ImageGenerator_run gen1 prompt =
      Except.error (PyError.toolException imageGenFailureText) := by
    unfold ImageGenerator_run; rw [h1]
  have r2 : ImageGenerator_run gen2 prompt =
      Except.error (PyError.toolException imageGenFailureText) := by
    unfold ImageGenerator_run; rw [h2]
  refine ⟨?_, ?_⟩ <;> simp [toolInvoker, lookupTool, notebookTools, r1, r2, PyError.msg]

/-- Witness for C5: two runs whose Prodia calls fail with different raw
exceptions produce the identical fixed-message observation. -/
theorem toolException_observation_independent_of_cause_witness :
    toolInvoker (notebookTools fun _ => Except.error "DNS resolution failed")
        "Image Generator" "cats" =
      toolInvoker (notebookTools fun _ => Except.error "HTTP 500 from provider")
        "Image Generator" "cats" ∧
    toolInvoker (notebookTools fun _ => Except.error "DNS resolution failed")
        "Image Generator" "cats" =
      Observation.failure imageGenFailureText :=
  toolException_observation_independent_of_cause
    (fun _ => Except.error "DNS resolution failed")
    (fun _ => Except.error "HTTP 500 from provider")
    "cats" "DNS resolution failed" "HTTP 500 from provider"
    (by decide) rfl rfl

/-- C6: a successful tool call yields a success observation wrapping the
tool's returned text verbatim — for the ImageGenerator, exactly the string
form of the generated image URL, unmodified. -/
theorem success_observation_verbatim
    (gen : String → Except String String) (prompt url : String)
    (h : gen prompt = Except.ok url) :
    ImageGenerator_run gen prompt = Except.ok url ∧
    toolInvoker (notebookTools gen) "Image Generator" prompt =
      Observation.success url := by
  have r : ImageGenerator_run gen prompt = Except.ok url := by
    unfold ImageGenerator_run; rw [h]
  exact ⟨r, by simp [toolInvoker, lookupTool, notebookTools, r]⟩

/-- Witness for C6: the URL recorded in the notebook's run is wrapped
verbatim. -/
theorem success_observation_verbatim_witness :
    ImageGenerator_run
        (fun _ => Except.ok "https://images.prodia.xyz/584da3b6-7a5e-4522-b4ca-dcd391ca7966.png")
        "Two small cats playing with a ball of yarn" =
      Except.ok "https://images.prodia.xyz/584da3b6-7a5e-4522-b4ca-dcd391ca7966.png" ∧
    toolInvoker
        (notebookTools
          (fun _ => Except.ok "https://images.prodia.xyz/584da3b6-7a5e-4522-b4ca-dcd391ca7966.png"))
        "Image Generator" "Two small cats playing with a ball of yarn" =
      Observation.success "https://images.prodia.xyz/584da3b6-7a5e-4522-b4ca-dcd391ca7966.png" :=
  success_observation_verbatim
    (fun _ => Except.ok "https://images.prodia.xyz/584da3b6-7a5e-4522-b4ca-dcd391ca7966.png")
    "Two small cats playing with a ball of yarn"
    "https://images.prodia.xyz/584da3b6-7a5e-4522-b4ca-dcd391ca7966.png" rfl

/-- The model oracle of the unknown-tool scenario: the first generation
names a tool that is not in the registry, the second finishes. -/
def unknownToolModel : Nat → String := fun i =>
  if i = 0 then "Thought: try video instead\nAction: Video Generator\nAction Input: cats"
  else "Final Answer: done"

/-- C9: an Action outcome naming any tool other than "Image Generator" —
the only registered tool — produces a normal failure observation whose
fixed message identifies the unknown tool name (never a ParseError, never a
stack trace), and the loop continues: in a two-iteration run whose first
generation names "Video Generator", the step is recorded as an ordinary
tool step with that failure observation and the run still terminates with
the second generation's final answer. -/
theorem unknown_tool_failure_observation
    (gen : String → Except String String) (name input : String)
    (h : name ≠ "Image Generator") :
    toolInvoker (notebookTools gen) name input =
      Observation.failure ("Unknown tool: " ++ name) ∧
    (agentRun (notebookTools gen) unknownToolModel (fun _ => false) 2).terminationReason =
      TerminationReason.finalAnswer ∧
    (agentRun (notebookTools gen) unknownToolModel (fun _ => false) 2).intermediateSteps =
      [⟨"Video Generator", "cats", unknownToolModel 0, "Unknown tool: Video Generator"⟩] := by
  refine ⟨?_, rfl, rfl⟩
  simp [toolInvoker, lookupTool, notebookTools, h]

/-- Witness for C9: the unknown tool name "Video Generator". -/
theorem unknown_tool_failure_observation_witness :
    toolInvoker (notebookTools fun _ => Except.ok "unused") "Video Generator" "cats" =
      Observation.failure ("Unknown tool: " ++ "Video Generator") ∧
    (agentRun (notebookTools fun _ => Except.ok "unused") unknownToolModel
        (fun _ => false) 2).terminationReason = TerminationReason.finalAnswer ∧
    (agentRun (notebookTools fun _ => Except.ok "unused") unknownToolModel
        (fun _ => false) 2).intermediateSteps =
      [⟨"Video Generator", "cats", unknownToolModel 0, "Unknown tool: Video Generator"⟩] :=
  unknown_tool_failure_observation (fun _ => Except.ok "unused") "Video Generator" "cats"
    (by decide)

/-- C7: ConversationMemory holds at most k exchanges; inserting into a full
window evicts the oldest entry (FIFO); and the exposed run inserts exactly
the terminal (input, final answer) exchange, after the loop has reached its
terminal outcome — the loop itself never touches the memory. -/
theorem conversationMemory_bounded_fifo
    (k maxIterations : Nat) (mem : List Exchange) (e : Exchange)
    (registry : ToolRegistry) (model : Nat → String) (cancelled : Nat → Bool)
    (input : String)
    (hk : 0 < k) (_hlen : mem.length ≤ k) :
    (memInsert k mem e).length ≤ k ∧
    (mem.length = k → memInsert k mem e = mem.tail ++ [e]) ∧
    (runTask k maxIterations registry model cancelled input mem).2 =
      memInsert k mem
        (input,
          (runTask k maxIterations registry model cancelled input mem).1.finalAnswerText) := by
  refine ⟨?_, ?_, rfl⟩
  · simp only [memInsert, List.length_drop]
    omega
  · intro hfull
    cases mem with
    | nil => simp only [List.length_nil] at hfull; omega
    | cons x xs =>
      have hlen1 : xs.length + 1 = k := by
        simpa using hfull
      have hdrop : ((x :: xs) ++ [e]).length - k = 1 := by
        simp only [List.length_append, List.length_cons, List.length_nil]
        omega
      show ((x :: xs) ++ [e]).drop (((x :: xs) ++ [e]).length - k) =
        (x :: xs).tail ++ [e]
      rw [hdrop]
      simp

/-- Witness for C7: a window of capacity 2 holding 2 exchanges; inserting a
third keeps the length at 2 and evicts the oldest. -/
theorem conversationMemory_bounded_fifo_witness :
    (memInsert 2 [("a", "b"), ("c", "d")] ("x", "y")).length ≤ 2 ∧
    memInsert 2 [("a", "b"), ("c", "d")] ("x", "y") =
      ([("a", "b"), ("c", "d")] : List Exchange).tail ++ [("x", "y")] :=
  ⟨(conversationMemory_bounded_fifo 2 1 [("a", "b"), ("c", "d")] ("x", "y") []
      (fun _ => "Final Answer: ok") (fun _ => false) "task"
      (by decide) (by decide)).1,
   (conversationMemory_bounded_fifo 2 1 [("a", "b"), ("c", "d")] ("x", "y") []
      (fun _ => "Final Answer: ok") (fun _ => false) "task"
      (by decide) (by decide)).2.1 (by decide)⟩

/-- Helper for C8: if no cancellation fires and no generation up to the
budget parses as a final answer, the loop exhausts its fuel, issues exactly
one forced model call, and that call's text is the final answer. -/
theorem agentLoop_exhausts (registry : ToolRegistry) (model : Nat → String)
    (cancelled : Nat → Bool) (fuel : Nat) :
    ∀ (calls : Nat) (steps : List AgentStep),
      (∀ i, i ≤ calls + fuel → cancelled i = false) →
      (∀ i, calls ≤ i → i < calls + fuel → (actionParser (model i)).isFinal = false) →
      (agentLoop registry model cancelled fuel calls steps).terminationReason =
          TerminationReason.maxIterationsExceeded ∧
        (agentLoop registry model cancelled fuel calls steps).modelCalls =
          calls + fuel + 1 ∧
        (agentLoop registry model cancelled fuel calls steps).finalAnswerText =
          model (calls + fuel) := by
  induction fuel with
  | zero =>
    intro calls steps hnc _hnf
    have hc : cancelled calls = false := hnc calls (by omega)
    simp [agentLoop, hc]
  | succ fuel ih =>
    intro calls steps hnc hnf
    have hc : cancelled calls = false := hnc calls (by omega)
    have hf : (actionParser (model calls)).isFinal = false :=
      hnf calls (by omega) (by omega)
    have harith : calls + 1 + fuel = calls + (fuel + 1) := by omega
    cases hp : actionParser (model calls) with
    | finalAnswer t l => rw [hp] at hf; simp [Outcome.isFinal] at hf
    | action n i l =>
      have hstep : agentLoop registry model cancelled (fuel + 1) calls steps =
          agentLoop registry model cancelled fuel (calls + 1)
            (steps ++ [⟨n, i, l, (toolInvoker registry n i).text⟩]) := by
        simp [agentLoop, hc, hp]
      rw [hstep, ← harith]
      exact ih (calls + 1) _ (fun j hj => hnc j (by omega))
        (fun j hj1 hj2 => hnf j (by omega) (by omega))
    | parseError r =>
      have hstep : agentLoop registry model cancelled (fuel + 1) calls steps =
          agentLoop registry model cancelled fuel (calls + 1)
            (steps ++ [⟨"_Exception", r, model calls, r⟩]) := by
        simp [agentLoop, hc, hp]
      rw [hstep, ← harith]
      exact ih (calls + 1) _ (fun j hj => hnc j (by omega))
        (fun j hj1 hj2 => hnf j (by omega) (by omega))

/-- C8: when no generation within the iteration budget is a final answer
(and the caller never cancels), the run terminates with
MaxIterationsExceeded after exactly `max iterations + 1` model calls, the
one extra call being the forced generation, and whatever text that call
returns becomes the final answer even if not in the expected format. -/
theorem forced_generation_on_budget_exhaustion
    (registry : ToolRegistry) (model : Nat → String) (cancelled : Nat → Bool)
    (maxIterations : Nat)
    (hnc : ∀ i, i ≤ maxIterations → cancelled i = false)
    (hnf : ∀ i, i < maxIterations → (actionParser (model i)).isFinal = false) :
    (agentRun registry model cancelled maxIterations).terminationReason =
      TerminationReason.maxIterationsExceeded ∧
    (agentRun registry model cancelled maxIterations).modelCalls =
      maxIterations + 1 ∧
    (agentRun registry model cancelled maxIterations).finalAnswerText =
      model maxIterations := by
  have h := agentLoop_exhausts registry model cancelled maxIterations 0 []
    (fun i hi => hnc i (by omega)) (fun i _ h2 => hnf i (by omega))
  simpa [agentRun] using h

/-- Witness for C8: a model that always answers off-format exhausts a
budget of 2 iterations; the third (forced) call's text is the answer. -/
theorem forced_generation_on_budget_exhaustion_witness :
    (agentRun [] (fun _ => "keep going") (fun _ => false) 2).terminationReason =
      TerminationReason.maxIterationsExceeded ∧
    (agentRun [] (fun _ => "keep going") (fun _ => false) 2).modelCalls = 3 ∧
    (agentRun [] (fun _ => "keep going") (fun _ => false) 2).finalAnswerText =
      "keep going" :=
  forced_generation_on_budget_exhaustion [] (fun _ => "keep going")
    (fun _ => false) 2 (fun _ _ => rfl)
    (fun _ _ => (by decide : (actionParser "keep going").isFinal = false))

/-- C1: the exposed run operation returns the record of final answer text,
ordered intermediate steps and a termination reason drawn from
FinalAnswer, MaxIterationsExceeded, Aborted; and the whole result is
independent of the raw exception text of tool failures — two runs whose
tool pipelines fail (with arbitrary, possibly different, raw exceptions)
on the same prompts and succeed with the same values produce identical
results, so raw exception text never appears in the result. -/
theorem run_result_shape_and_exception_independence
    (k maxIterations : Nat) (model : Nat → String) (cancelled : Nat → Bool)
    (input : String) (mem : List Exchange)
    (gen1 gen2 : String → Except String String)
    (h : ∀ p, gen1 p = gen2 p ∨
        ((∃ e, gen1 p = Except.error e) ∧ (∃ e, gen2 p = Except.error e))) :
    ((runTask k maxIterations (notebookTools gen1) model cancelled input mem).1.terminationReason =
        TerminationReason.finalAnswer ∨
      (runTask k maxIterations (notebookTools gen1) model cancelled input mem).1.terminationReason =
        TerminationReason.maxIterationsExceeded ∨
      (runTask k maxIterations (notebookTools gen1) model cancelled input mem).1.terminationReason =
        TerminationReason.aborted) ∧
    runTask k maxIterations (notebookTools gen1) model cancelled input mem =
      runTask k maxIterations (notebookTools gen2) model cancelled input mem := by
  constructor
  · cases hr : (runTask k maxIterations (notebookTools gen1) model cancelled input mem).1.terminationReason with
    | finalAnswer => exact Or.inl rfl
    | maxIterationsExceeded => exact Or.inr (Or.inl rfl)
    | aborted => exact Or.inr (Or.inr rfl)
  · have htool : ImageGenerator_run gen1 = ImageGenerator_run gen2 := by
      funext p
      rcases h p with heq | ⟨⟨e1, h1⟩, ⟨e2, h2⟩⟩
      · unfold ImageGenerator_run; rw [heq]
      · unfold ImageGenerator_run; rw [h1, h2]
    have hreg : notebookTools gen1 = notebookTools gen2 := by
      unfold notebookTools; rw [htool]
    rw [hreg]

/-- Witness for C1: two runs whose tool pipelines fail with different raw
exception texts return identical, well-formed results. -/
theorem run_result_shape_and_exception_independence_witness :
    ((runTask 5 1 (notebookTools fun _ => Except.error "boom one")
          (fun _ => "Final Answer: ok") (fun _ => false) "hi" []).1.terminationReason =
        TerminationReason.finalAnswer ∨
      (runTask 5 1 (notebookTools fun _ => Except.error "boom one")
          (fun _ => "Final Answer: ok") (fun _ => false) "hi" []).1.terminationReason =
        TerminationReason.maxIterationsExceeded ∨
      (runTask 5 1 (notebookTools fun _ => Except.error "boom one")
          (fun _ => "Final Answer: ok") (fun _ => false) "hi" []).1.terminationReason =
        TerminationReason.aborted) ∧
    runTask 5 1 (notebookTools fun _ => Except.error "boom one")
        (fun _ => "Final Answer: ok") (fun _ => false) "hi" [] =
      runTask 5 1 (notebookTools fun _ => Except.error "boom two")
        (fun _ => "Final Answer: ok") (fun _ => false) "hi" [] :=
  run_result_shape_and_exception_independence 5 1 (fun _ => "Final Answer: ok")
    (fun _ => false) "hi" [] (fun _ => Except.error "boom one")
    (fun _ => Except.error "boom two")
    (fun _ => Or.inr ⟨⟨"boom one", rfl⟩, ⟨"boom two", rfl⟩⟩)

end MistralFC
